import Mathlib

/-!
Shallow embedding of the registration lifecycle, audit ledger, user
directory and query layer of the backend service
(src/backend/src/services/registration_service.py, audit_service.py,
user_service.py), together with theorems checking the specification's
claims against it.

Modelling conventions:
- UUIDs and timestamps are Nat; the database clock is an explicit `now`
  field that advances after every mutating operation.
- The relational store is a record of lists; SQL conditional updates,
  unique constraints and ORDER BY / LIMIT / OFFSET are translated to
  the corresponding list operations.
- A mutating service method runs in one transaction: it either returns
  the post-state or an error with no state change (rollback).
-/

/-- Registration approval status (models.registration.RegistrationStatus). -/
inductive RegistrationStatus where
  | pending
  | approved
  | rejected
deriving DecidableEq, Repr

/-- The string stored in the status column (the enum values in Python). -/
def statusStr : RegistrationStatus → String
  | .pending => "Pending"
  | .approved => "Approved"
  | .rejected => "Rejected"

/-- Audit action kinds (models.audit_log.AuditAction). -/
inductive AuditAction where
  | created
  | approved
  | rejected
  | updated
  | deleted
deriving DecidableEq, Repr

/-- A capability descriptor (models.registration.ToolInfo). -/
structure ToolInfo where
  name : String
  description : Option String := none
  version : Option String := none
deriving DecidableEq, Repr

/-- Payload of RegistrationService.create_registration (RegistrationCreate). -/
structure RegistrationCreate where
  endpoint_url : String
  endpoint_name : String
  description : Option String
  owner_contact : String
  available_tools : List ToolInfo
deriving DecidableEq, Repr

/-- A row of the registrations table. -/
structure Registration where
  registration_id : Nat
  endpoint_url : String
  endpoint_name : String
  description : Option String
  owner_contact : String
  available_tools : List ToolInfo
  status : RegistrationStatus
  submitter_id : Nat
  approver_id : Option Nat
  created_at : Nat
  updated_at : Nat
  approved_at : Option Nat
deriving DecidableEq, Repr

/-- The structured metadata dicts the services attach to audit entries:
create_registration builds {endpoint_url, endpoint_name, owner_contact,
available_tools_count}; update_registration_status builds {approver_id,
reason}; delete_registration builds the pre-delete snapshot. -/
inductive AuditMeta where
  | createdSnap (endpoint_url endpoint_name owner_contact : String)
      (available_tools_count : Nat)
  | decisionSnap (approver_id : Nat) (reason : Option String)
  | deletedSnap (endpoint_url endpoint_name : String) (previous_status : String)
      (submitter_id : Nat) (approver_id : Option Nat) (deleted_by : Nat)
deriving DecidableEq, Repr

/-- A row of the audit_log table (AuditService.log_action inserts these). -/
structure AuditLogEntry where
  log_id : Nat
  registration_id : Nat
  user_id : Nat
  action : AuditAction
  previous_status : Option String
  new_status : Option String
  meta : Option AuditMeta
  timestamp : Nat
deriving DecidableEq, Repr

/-- A row of the users table. -/
structure User where
  user_id : Nat
  entra_id : String
  email : String
  display_name : Option String
  is_admin : Bool
  created_at : Nat
  updated_at : Nat
deriving DecidableEq, Repr

/-- Payload of UserService.get_or_create_user (UserCreate). -/
structure UserCreate where
  entra_id : String
  email : String
  display_name : Option String
deriving DecidableEq, Repr

/-- The database state: the three tables, id generators and the clock. -/
structure DB where
  registrations : List Registration
  audit_log : List AuditLogEntry
  users : List User
  next_registration_id : Nat
  next_log_id : Nat
  next_user_id : Nat
  now : Nat
deriving DecidableEq, Repr

/-- The typed recoverable outcomes the services raise:
asyncpg.UniqueViolationError on duplicate endpoint_url, ValueError on
new_status=Pending, ValueError on an invalid audit date range. -/
inductive ServiceError where
  | uniqueViolation
  | valueError
  | invalidRange
deriving DecidableEq, Repr

/-- The unique constraint on registrations.endpoint_url: the INSERT
raises UniqueViolationError iff a row with this URL already exists. -/
def urlTaken (regs : List Registration) (url : String) : Bool :=
  regs.any (fun r => decide (r.endpoint_url = url))

/-- RegistrationService.create_registration: within one transaction,
INSERT the row with status 'Pending', approver_id NULL, approved_at NULL
(failing with UniqueViolationError if the endpoint_url is taken, which
rolls the transaction back), then log a Created audit entry with
previous_status NULL and new_status 'Pending'. -/
def create_registration (s : DB) (rc : RegistrationCreate) (submitter_id : Nat) :
    Except ServiceError (Registration × DB) :=
  if urlTaken s.registrations rc.endpoint_url then
    .error .uniqueViolation
  else
    let reg : Registration :=
      { registration_id := s.next_registration_id
        endpoint_url := rc.endpoint_url
        endpoint_name := rc.endpoint_name
        description := rc.description
        owner_contact := rc.owner_contact
        available_tools := rc.available_tools
        status := .pending
        submitter_id := submitter_id
        approver_id := none
        created_at := s.now
        updated_at := s.now
        approved_at := none }
    let entry : AuditLogEntry :=
      { log_id := s.next_log_id
        registration_id := reg.registration_id
        user_id := submitter_id
        action := .created
        previous_status := none
        new_status := some (statusStr .pending)
        meta := some (.createdSnap rc.endpoint_url rc.endpoint_name
          rc.owner_contact rc.available_tools.length)
        timestamp := s.now }
    .ok (reg,
      { s with
        registrations := s.registrations ++ [reg]
        audit_log := s.audit_log ++ [entry]
        next_registration_id := s.next_registration_id + 1
        next_log_id := s.next_log_id + 1
        now := s.now + 1 })

/-- The SET clause of the conditional UPDATE in update_registration_status. -/
def decideRow (r : Registration) (st : RegistrationStatus) (approver_id ts : Nat) :
    Registration :=
  { r with status := st, approver_id := some approver_id,
           approved_at := some ts, updated_at := ts }

/-- The WHERE clause of the conditional UPDATE:
registration_id = $3 AND status = 'Pending'. -/
def pendingRowWithId (registration_id : Nat) (r : Registration) : Bool :=
  decide (r.registration_id = registration_id ∧ r.status = RegistrationStatus.pending)

/-- RegistrationService.update_registration_status: raise ValueError on
new_status=Pending; otherwise, within one transaction, run the single
conditional UPDATE guarded by status='Pending'. Zero rows affected
returns None with nothing modified; on success the Approved/Rejected
audit entry is logged in the same transaction. -/
def update_registration_status (s : DB) (registration_id : Nat)
    (new_status : RegistrationStatus) (approver_id : Nat) (reason : Option String) :
    Except ServiceError (Option Registration × DB) :=
  if new_status = RegistrationStatus.pending then
    .error .valueError
  else
    match s.registrations.find? (pendingRowWithId registration_id) with
    | none => .ok (none, s)
    | some r =>
      let updated := decideRow r new_status approver_id s.now
      let entry : AuditLogEntry :=
        { log_id := s.next_log_id
          registration_id := updated.registration_id
          user_id := approver_id
          action := if new_status = RegistrationStatus.approved then .approved
                    else .rejected
          previous_status := some (statusStr .pending)
          new_status := some (statusStr new_status)
          meta := some (.decisionSnap approver_id reason)
          timestamp := s.now }
      .ok (some updated,
        { s with
          registrations := s.registrations.map (fun x =>
            if pendingRowWithId registration_id x then
              decideRow x new_status approver_id s.now
            else x)
          audit_log := s.audit_log ++ [entry]
          next_log_id := s.next_log_id + 1
          now := s.now + 1 })

/-- RegistrationService.delete_registration: within one transaction,
SELECT the row (return False if absent), log the Deleted audit entry
with the pre-delete snapshot, then DELETE the row. -/
def delete_registration (s : DB) (registration_id deleter_id : Nat) : Bool × DB :=
  match s.registrations.find? (fun r => decide (r.registration_id = registration_id)) with
  | none => (false, s)
  | some r =>
    let entry : AuditLogEntry :=
      { log_id := s.next_log_id
        registration_id := registration_id
        user_id := deleter_id
        action := .deleted
        previous_status := some (statusStr r.status)
        new_status := none
        meta := some (.deletedSnap r.endpoint_url r.endpoint_name
          (statusStr r.status) r.submitter_id r.approver_id deleter_id)
        timestamp := s.now }
    (true,
      { s with
        registrations := s.registrations.filter
          (fun x => decide (x.registration_id ≠ registration_id))
        audit_log := s.audit_log ++ [entry]
        next_log_id := s.next_log_id + 1
        now := s.now + 1 })

/-- RegistrationService.get_registration_by_id: SELECT by primary key. -/
def get_registration_by_id (s : DB) (registration_id : Nat) : Option Registration :=
  s.registrations.find? (fun r => decide (r.registration_id = registration_id))

/-- RegistrationService.get_registration_by_url: SELECT by exact,
case-sensitive endpoint_url match. -/
def get_registration_by_url (s : DB) (endpoint_url : String) : Option Registration :=
  s.registrations.find? (fun r => decide (r.endpoint_url = endpoint_url))

/-- Case-insensitive substring match, the semantics of
column ILIKE '%term%' built in get_registrations. -/
def strContainsCI (hay needle : String) : Bool :=
  decide ((needle.toList.map Char.toLower) <:+: (hay.toList.map Char.toLower))

/-- The WHERE clause get_registrations builds from the optional filters.
Python skips a filter whose value is falsy, so an absent filter and an
empty-string filter both match every row; present filters combine with
AND, and the search term matches endpoint_name OR owner_contact. -/
def regMatches (status : Option String) (submitter_id : Option Nat)
    (search : Option String) (r : Registration) : Bool :=
  (match status with
   | none => true
   | some st => if st = "" then true else decide (statusStr r.status = st)) &&
  (match submitter_id with
   | none => true
   | some sid => decide (r.submitter_id = sid)) &&
  (match search with
   | none => true
   | some term =>
     if term = "" then true
     else strContainsCI r.endpoint_name term || strContainsCI r.owner_contact term)

/-- ORDER BY created_at DESC. -/
def newestRegFirst (a b : Registration) : Prop := b.created_at ≤ a.created_at

instance : DecidableRel newestRegFirst :=
  fun a b => inferInstanceAs (Decidable (b.created_at ≤ a.created_at))

instance : IsTotal Registration newestRegFirst :=
  ⟨fun a b => Nat.le_total b.created_at a.created_at⟩

instance : IsTrans Registration newestRegFirst :=
  ⟨fun _ _ _ hab hbc => Nat.le_trans hbc hab⟩

/-- RegistrationService.get_registrations: COUNT the rows matching the
dynamically built WHERE clause, then SELECT them ORDER BY created_at
DESC LIMIT limit OFFSET offset. Returns (page, total). -/
def get_registrations (s : DB) (status : Option String) (submitter_id : Option Nat)
    (search : Option String) (limit offset : Nat) : List Registration × Nat :=
  let matching := s.registrations.filter (regMatches status submitter_id search)
  let sorted := matching.insertionSort newestRegFirst
  ((sorted.drop offset).take limit, matching.length)

/-- The WHERE clause AuditService.query_logs builds from its optional
filters: registration_id, user_id, action equality plus
timestamp >= from_date and timestamp <= to_date. -/
def auditMatches (registration_id user_id : Option Nat) (action : Option AuditAction)
    (from_date to_date : Option Nat) (e : AuditLogEntry) : Bool :=
  (match registration_id with
   | none => true
   | some i => decide (e.registration_id = i)) &&
  (match user_id with
   | none => true
   | some i => decide (e.user_id = i)) &&
  (match action with
   | none => true
   | some a => decide (e.action = a)) &&
  (match from_date with
   | none => true
   | some t => decide (t ≤ e.timestamp)) &&
  (match to_date with
   | none => true
   | some t => decide (e.timestamp ≤ t))

/-- ORDER BY timestamp DESC. -/
def newestLogFirst (a b : AuditLogEntry) : Prop := b.timestamp ≤ a.timestamp

instance : DecidableRel newestLogFirst :=
  fun a b => inferInstanceAs (Decidable (b.timestamp ≤ a.timestamp))

instance : IsTotal AuditLogEntry newestLogFirst :=
  ⟨fun a b => Nat.le_total b.timestamp a.timestamp⟩

instance : IsTrans AuditLogEntry newestLogFirst :=
  ⟨fun _ _ _ hab hbc => Nat.le_trans hbc hab⟩

/-- The guard of the date-range validation in query_logs: both dates
present and to_date strictly before from_date. -/
def invalidDateRange (from_date to_date : Option Nat) : Bool :=
  match from_date, to_date with
  | some f, some t => decide (t < f)
  | _, _ => false

/-- AuditService.query_logs: raise ValueError when both dates are given
and to_date < from_date, before touching the store; then clamp limit to
200, COUNT the matching rows, and SELECT them ORDER BY timestamp DESC
LIMIT limit OFFSET offset. Returns (page, total). -/
def query_logs (s : DB) (registration_id user_id : Option Nat)
    (action : Option AuditAction) (from_date to_date : Option Nat)
    (limit offset : Nat) : Except ServiceError (List AuditLogEntry × Nat) :=
  if invalidDateRange from_date to_date then
    .error .invalidRange
  else
    let lim := min limit 200
    let matching := s.audit_log.filter
      (auditMatches registration_id user_id action from_date to_date)
    let sorted := matching.insertionSort newestLogFirst
    .ok ((sorted.drop offset).take lim, matching.length)

/-- UserService.get_or_create_user: INSERT ON CONFLICT (entra_id) DO
UPDATE SET email, display_name, updated_at — is_admin is never touched
for an existing row and defaults to false for a new one. -/
def get_or_create_user (s : DB) (c : UserCreate) : User × DB :=
  match s.users.find? (fun u => decide (u.entra_id = c.entra_id)) with
  | some u =>
    let u' : User :=
      { u with email := c.email, display_name := c.display_name, updated_at := s.now }
    (u',
      { s with
        users := s.users.map (fun x =>
          if x.entra_id = c.entra_id then
            { x with email := c.email, display_name := c.display_name,
                     updated_at := s.now }
          else x)
        now := s.now + 1 })
  | none =>
    let u : User :=
      { user_id := s.next_user_id
        entra_id := c.entra_id
        email := c.email
        display_name := c.display_name
        is_admin := false
        created_at := s.now
        updated_at := s.now }
    (u,
      { s with
        users := s.users ++ [u]
        next_user_id := s.next_user_id + 1
        now := s.now + 1 })

/-- UserService.check_admin_status: SELECT is_admin WHERE user_id = $1;
a missing row yields False rather than an error. -/
def check_admin_status (s : DB) (user_id : Nat) : Bool :=
  match s.users.find? (fun u => decide (u.user_id = user_id)) with
  | none => false
  | some u => u.is_admin

/-- UserService.update_admin_status: UPDATE users SET is_admin WHERE
user_id = $2 (idempotent when the row is absent). -/
def update_admin_status (s : DB) (user_id : Nat) (is_admin : Bool) : DB :=
  { s with
    users := s.users.map (fun x =>
      if x.user_id = user_id then
        { x with is_admin := is_admin, updated_at := s.now }
      else x)
    now := s.now + 1 }

/-- The mutating operations of the registration lifecycle engine, for
stating invariants over arbitrary operation sequences. -/
inductive Op where
  | create (rc : RegistrationCreate) (submitter_id : Nat)
  | decide (registration_id : Nat) (new_status : RegistrationStatus)
      (approver_id : Nat) (reason : Option String)
  | delete (registration_id deleter_id : Nat)
deriving DecidableEq, Repr

/-- Run one operation; a failed (rolled-back) operation leaves the
state unchanged, exactly as the transaction discipline guarantees. -/
def applyOp (s : DB) (op : Op) : DB :=
  match op with
  | .create rc sub =>
    match create_registration s rc sub with
    | .ok (_, s') => s'
    | .error _ => s
  | .decide id st ap r =>
    match update_registration_status s id st ap r with
    | .ok (_, s') => s'
    | .error _ => s
  | .delete id del => (delete_registration s id del).2

/-- The empty database at startup. -/
def initDB : DB :=
  { registrations := []
    audit_log := []
    users := []
    next_registration_id := 0
    next_log_id := 0
    next_user_id := 0
    now := 0 }

/-- Run a sequence of lifecycle operations from a state. -/
def runOps (s : DB) (ops : List Op) : DB :=
  ops.foldl applyOp s

/-- The per-row invariant claimed of every registration: status is
Pending iff approver_id is null iff approved_at is null. -/
def regOK (r : Registration) : Prop :=
  (r.status = RegistrationStatus.pending ↔ r.approver_id = none) ∧
  (r.status = RegistrationStatus.pending ↔ r.approved_at = none)

instance (r : Registration) : Decidable (regOK r) := by
  unfold regOK; infer_instance

/-- The database-wide invariant: every stored registration satisfies regOK. -/
def regInvariant (s : DB) : Prop :=
  ∀ r ∈ s.registrations, regOK r

instance (s : DB) : Decidable (regInvariant s) :=
  List.decidableBAll _ _

/-! Concrete example data used by the witnesses. -/

/-- The spec's end-to-end example payload. -/
def rcA : RegistrationCreate :=
  { endpoint_url := "https://a.example/mcp"
    endpoint_name := "A Server"
    description := none
    owner_contact := "o@x.com"
    available_tools := [{ name := "search" }] }

/-- The row created from rcA in the empty database by user 10. -/
def regA : Registration :=
  { registration_id := 0
    endpoint_url := "https://a.example/mcp"
    endpoint_name := "A Server"
    description := none
    owner_contact := "o@x.com"
    available_tools := [{ name := "search" }]
    status := .pending
    submitter_id := 10
    approver_id := none
    created_at := 0
    updated_at := 0
    approved_at := none }

/-- The Created audit entry of that insertion. -/
def entryA : AuditLogEntry :=
  { log_id := 0
    registration_id := 0
    user_id := 10
    action := .created
    previous_status := none
    new_status := some "Pending"
    meta := some (.createdSnap "https://a.example/mcp" "A Server" "o@x.com" 1)
    timestamp := 0 }

/-- The database after creating regA. -/
def dbA : DB :=
  { registrations := [regA]
    audit_log := [entryA]
    users := []
    next_registration_id := 1
    next_log_id := 1
    next_user_id := 0
    now := 1 }

/-- regA after approval by admin 20. -/
def regA1 : Registration :=
  { regA with status := .approved, approver_id := some 20,
              approved_at := some 1, updated_at := 1 }

/-- The Approved audit entry of that decision. -/
def entryA1 : AuditLogEntry :=
  { log_id := 1
    registration_id := 0
    user_id := 20
    action := .approved
    previous_status := some "Pending"
    new_status := some "Approved"
    meta := some (.decisionSnap 20 none)
    timestamp := 1 }

/-- The database after the approval. -/
def dbA1 : DB :=
  { dbA with registrations := [regA1], audit_log := [entryA, entryA1],
             next_log_id := 2, now := 2 }


/-- Number of stored registrations with a given endpoint URL. -/
def countUrl (l : List Registration) (url : String) : Nat :=
  (l.filter (fun r => decide (r.endpoint_url = url))).length

/-- Seeded row named "OpenAI MCP Server" (spec's search example). -/
def regOpenAI : Registration :=
  { registration_id := 1
    endpoint_url := "https://openai.example/mcp"
    endpoint_name := "OpenAI MCP Server"
    description := none
    owner_contact := "ai@openai.example"
    available_tools := []
    status := .pending
    submitter_id := 10
    approver_id := none
    created_at := 5
    updated_at := 5
    approved_at := none }

/-- Seeded row named "Weather Server" (spec's search example). -/
def regWeather : Registration :=
  { registration_id := 2
    endpoint_url := "https://weather.example/mcp"
    endpoint_name := "Weather Server"
    description := none
    owner_contact := "ops@weather.example"
    available_tools := []
    status := .pending
    submitter_id := 11
    approver_id := none
    created_at := 6
    updated_at := 6
    approved_at := none }

/-- Database seeded with the two example rows. -/
def dbSeed : DB :=
  { registrations := [regOpenAI, regWeather]
    audit_log := []
    users := []
    next_registration_id := 3
    next_log_id := 0
    next_user_id := 0
    now := 7 }

/-- An existing admin user. -/
def userAdmin : User :=
  { user_id := 1
    entra_id := "entra-1"
    email := "admin@x.com"
    display_name := some "Admin"
    is_admin := true
    created_at := 0
    updated_at := 0 }

/-- An existing non-admin user. -/
def userBob : User :=
  { user_id := 2
    entra_id := "entra-2"
    email := "bob@x.com"
    display_name := none
    is_admin := false
    created_at := 0
    updated_at := 0 }

/-- Database holding the two example users. -/
def dbUsers : DB :=
  { initDB with users := [userAdmin, userBob], next_user_id := 3, now := 4 }

/-- Fresh identity claims for the existing non-admin user. -/
def claimsBob : UserCreate :=
  { entra_id := "entra-2", email := "new@x.com", display_name := some "Bobby" }

/-- Fresh identity claims for the existing admin user. -/
def claimsAdmin : UserCreate :=
  { entra_id := "entra-1", email := "a2@x.com", display_name := none }

/-- Identity claims of a subject with no stored user record. -/
def claimsNew : UserCreate :=
  { entra_id := "entra-3", email := "c@x.com", display_name := none }

/-! Helper lemmas about the lifecycle operations. -/

/-- The row written by the conditional decision UPDATE satisfies the
status/approver/approved invariant whenever the new status is not Pending. -/
theorem regOK_decideRow (r : Registration) (st : RegistrationStatus) (ap ts : Nat)
    (h : st ≠ RegistrationStatus.pending) : regOK (decideRow r st ap ts) := by
  simp [regOK, decideRow, h]

/-- The row inserted by create_registration satisfies the invariant. -/
theorem regOK_createdRow (r : Registration) (hs : r.status = RegistrationStatus.pending)
    (ha : r.approver_id = none) (hd : r.approved_at = none) : regOK r := by
  simp [regOK, hs, ha, hd]

/-- One lifecycle operation preserves the registration invariant. -/
theorem applyOp_preserves_regInvariant (s : DB) (op : Op) (h : regInvariant s) :
    regInvariant (applyOp s op) := by
  cases op with
  | create rc sub =>
    by_cases hurl : urlTaken s.registrations rc.endpoint_url
    · simp [applyOp, create_registration, hurl]
      exact h
    · simp only [applyOp, create_registration, hurl, if_neg, Bool.false_eq_true,
        not_false_eq_true, if_false]
      intro r hr
      rcases List.mem_append.mp hr with h1 | h2
      · exact h r h1
      · simp only [List.mem_singleton] at h2
        subst h2
        exact regOK_createdRow _ rfl rfl rfl
  | decide id st ap reason =>
    by_cases hst : st = RegistrationStatus.pending
    · simp [applyOp, update_registration_status, hst]
      exact h
    · simp only [applyOp, update_registration_status, if_neg hst]
      cases hfind : s.registrations.find? (pendingRowWithId id) with
      | none => exact h
      | some r0 =>
        intro x hx
        rcases List.mem_map.mp hx with ⟨y, hy, rfl⟩
        by_cases hp : pendingRowWithId id y
        · simp only [hp, if_true]
          exact regOK_decideRow y st ap s.now hst
        · simp only [hp, if_false]
          exact h y hy
  | delete id del =>
    cases hfind : s.registrations.find? (fun r => decide (r.registration_id = id)) with
    | none => simpa [applyOp, delete_registration, hfind] using h
    | some r0 =>
      simp only [applyOp, delete_registration, hfind]
      intro x hx
      exact h x (List.mem_filter.mp hx).1

/-- The invariant holds of every state reached from a state satisfying it. -/
theorem runOps_preserves_regInvariant (s : DB) (ops : List Op) (h : regInvariant s) :
    regInvariant (runOps s ops) := by
  induction ops generalizing s with
  | nil => exact h
  | cons op ops ih => exact ih _ (applyOp_preserves_regInvariant s op h)

/-- Claim C1: for every registration, at every observable point — after
Create, after a successful or failed Decide, and after any sequence of
lifecycle operations starting from the empty database — the status is
Pending iff approver_id is null iff approved_at is null; Create stores
Pending with both fields null, and a successful Decide sets both fields
non-null together with a non-Pending status. -/
theorem claim_C1_pending_iff_null_invariant :
    (∀ ops : List Op, regInvariant (runOps initDB ops)) ∧
    (∀ (s : DB) (rc : RegistrationCreate) (sub : Nat) (r : Registration) (s' : DB),
      create_registration s rc sub = .ok (r, s') →
      r.status = RegistrationStatus.pending ∧ r.approver_id = none ∧
      r.approved_at = none) ∧
    (∀ (s : DB) (id : Nat) (st : RegistrationStatus) (ap : Nat)
      (reason : Option String) (r : Registration) (s' : DB),
      update_registration_status s id st ap reason = .ok (some r, s') →
      r.status ≠ RegistrationStatus.pending ∧ r.approver_id ≠ none ∧
      r.approved_at ≠ none) := by
  refine ⟨?_, ?_, ?_⟩
  · intro ops
    exact runOps_preserves_regInvariant initDB ops (by intro r hr; simp [initDB] at hr)
  · intro s rc sub r s' heq
    by_cases hurl : urlTaken s.registrations rc.endpoint_url
    · simp [create_registration, hurl] at heq
    · simp only [create_registration, hurl, Bool.false_eq_true, not_false_eq_true,
        if_false, if_neg, Except.ok.injEq, Prod.mk.injEq] at heq
      obtain ⟨hr, _⟩ := heq
      subst hr
      exact ⟨rfl, rfl, rfl⟩
  · intro s id st ap reason r s' heq
    by_cases hst : st = RegistrationStatus.pending
    · simp [update_registration_status, hst] at heq
    · simp only [update_registration_status, if_neg hst] at heq
      cases hfind : s.registrations.find? (pendingRowWithId id) with
      | none => simp [hfind] at heq
      | some r0 =>
        simp only [hfind, Except.ok.injEq, Prod.mk.injEq, Option.some.injEq] at heq
        obtain ⟨hr, _⟩ := heq
        subst hr
        simp [decideRow, hst]

/-- Witness for C1: the invariant holds after the spec's example run, the
concrete Create stores Pending with null approver fields, and the concrete
successful Decide stores a non-Pending status with both fields non-null. -/
theorem claim_C1_pending_iff_null_invariant_witness :
    regInvariant (runOps initDB
      [Op.create rcA 10, Op.decide 0 RegistrationStatus.approved 20 none]) ∧
    (regA.status = RegistrationStatus.pending ∧ regA.approver_id = none ∧
      regA.approved_at = none) ∧
    (regA1.status ≠ RegistrationStatus.pending ∧ regA1.approver_id ≠ none ∧
      regA1.approved_at ≠ none) :=
  ⟨claim_C1_pending_iff_null_invariant.1 _,
   claim_C1_pending_iff_null_invariant.2.1 initDB rcA 10 regA dbA (by rfl),
   claim_C1_pending_iff_null_invariant.2.2 dbA 0 RegistrationStatus.approved 20
     none regA1 dbA1 (by rfl)⟩

/-- After the conditional decision UPDATE ran against id, no row with
that id is still Pending, so the guard of a repeated decision matches
zero rows. -/
theorem find?_pending_after_decide (l : List Registration) (id : Nat)
    (st : RegistrationStatus) (ap ts : Nat) (hst : st ≠ RegistrationStatus.pending) :
    (l.map (fun x => if pendingRowWithId id x then decideRow x st ap ts else x)).find?
      (pendingRowWithId id) = none := by
  rw [List.find?_eq_none]
  intro x hx
  rcases List.mem_map.mp hx with ⟨y, hy, rfl⟩
  by_cases hp : pendingRowWithId id y
  · rw [if_pos hp]
    simp [pendingRowWithId, decideRow, hst]
  · simp [hp]

/-- When registration ids are unique (the primary-key constraint), a
SELECT by id after the conditional decision UPDATE returns the decided
row. -/
theorem find?_id_after_decide (l : List Registration) (id : Nat)
    (st : RegistrationStatus) (ap ts : Nat)
    (hnd : (l.map Registration.registration_id).Nodup) (r0 : Registration)
    (hfind : l.find? (pendingRowWithId id) = some r0) :
    (l.map (fun x => if pendingRowWithId id x then decideRow x st ap ts else x)).find?
      (fun x => decide (x.registration_id = id)) = some (decideRow r0 st ap ts) := by
  induction l with
  | nil => simp at hfind
  | cons a l ih =>
    simp only [List.map_cons, List.nodup_cons] at hnd
    simp only [List.map_cons]
    by_cases hp : pendingRowWithId id a
    · rw [List.find?_cons_of_pos _ hp] at hfind
      injection hfind with h
      subst h
      rw [if_pos hp]
      apply List.find?_cons_of_pos
      have hid : a.registration_id = id := (of_decide_eq_true hp).1
      simp [decideRow, hid]
    · rw [List.find?_cons_of_neg _ hp] at hfind
      rw [if_neg hp]
      by_cases hid : a.registration_id = id
      · exfalso
        have hr0mem : r0 ∈ l := List.mem_of_find?_eq_some hfind
        have hr0p : pendingRowWithId id r0 = true := List.find?_some hfind
        have hr0id : r0.registration_id = id := (of_decide_eq_true hr0p).1
        apply hnd.1
        rw [hid, ← hr0id]
        exact List.mem_map_of_mem _ hr0mem
      · rw [List.find?_cons_of_neg]
        · exact ih hnd.2 hfind
        · simp [hid]

/-- Claim C2: Decide performs a single conditional update guarded by the
stored status being exactly Pending. On success it sets the new status,
approver_id and approved_at, and in the same atomic unit appends an
Approved/Rejected audit entry with previous_status Pending and
new_status the decided status; when zero rows match the guard it returns
the not-found-or-not-pending outcome (None) and modifies nothing, so a
second Decide on the same id fails and the record keeps the first
decision. -/
theorem claim_C2_conditional_decide (s : DB) (id : Nat) (st : RegistrationStatus)
    (ap : Nat) (reason : Option String) (hst : st ≠ RegistrationStatus.pending)
    (hpk : (s.registrations.map Registration.registration_id).Nodup) :
    (s.registrations.find? (pendingRowWithId id) = none →
      update_registration_status s id st ap reason = .ok (none, s)) ∧
    (∀ r s', update_registration_status s id st ap reason = .ok (some r, s') →
      r.status = st ∧ r.approver_id = some ap ∧ r.approved_at = some s.now ∧
      (∃ e, s'.audit_log = s.audit_log ++ [e] ∧
        e.action = (if st = RegistrationStatus.approved then AuditAction.approved
                    else AuditAction.rejected) ∧
        e.previous_status = some (statusStr RegistrationStatus.pending) ∧
        e.new_status = some (statusStr st) ∧
        e.registration_id = r.registration_id ∧
        e.meta = some (.decisionSnap ap reason)) ∧
      (∀ st2 ap2 reason2, st2 ≠ RegistrationStatus.pending →
        update_registration_status s' id st2 ap2 reason2 = .ok (none, s')) ∧
      get_registration_by_id s' id = some r) := by
  constructor
  · intro hnone
    simp [update_registration_status, if_neg hst, hnone]
  · intro r s' heq
    simp only [update_registration_status, if_neg hst] at heq
    cases hfind : s.registrations.find? (pendingRowWithId id) with
    | none => rw [hfind] at heq; simp at heq
    | some r0 =>
      rw [hfind] at heq
      simp only [Except.ok.injEq, Prod.mk.injEq, Option.some.injEq] at heq
      obtain ⟨hr, hs'⟩ := heq
      subst hr
      subst hs'
      refine ⟨rfl, rfl, rfl, ⟨_, rfl, rfl, rfl, rfl, rfl, rfl⟩, ?_, ?_⟩
      · intro st2 ap2 reason2 hst2
        simp only [update_registration_status, if_neg hst2]
        rw [find?_pending_after_decide s.registrations id st ap s.now hst]
      · exact find?_id_after_decide s.registrations id st ap s.now hpk r0 hfind

/-- Witness for C2: approving the concrete pending registration produces
the decided row and state, after which a second decision (Rejected) on
the same id yields the None outcome and the stored record keeps the
approval. -/
theorem claim_C2_conditional_decide_witness :
    update_registration_status dbA1 0 RegistrationStatus.rejected 21 none =
      Except.ok (none, dbA1) ∧
    regA1.status = RegistrationStatus.approved ∧
    regA1.approver_id = some 20 ∧
    get_registration_by_id dbA1 0 = some regA1 := by
  have h := claim_C2_conditional_decide dbA 0 RegistrationStatus.approved 20 none
    (by decide) (by decide)
  have h2 := h.2 regA1 dbA1 (by rfl)
  exact ⟨h2.2.2.2.2.1 RegistrationStatus.rejected 21 none (by decide),
    h2.1, h2.2.1, h2.2.2.2.2.2⟩

/-- Claim C3: Delete runs as one atomic unit that reads the current
record (returning False with no audit entry when absent), appends a
Deleted audit entry whose previous_status is the status immediately
before deletion, whose new_status is null and whose metadata snapshots
the pre-delete state, and deletes the row; all prior audit entries for
the registration remain intact afterwards. -/
theorem claim_C3_delete_atomic_audit (s : DB) (id del : Nat) :
    (get_registration_by_id s id = none →
      delete_registration s id del = (false, s)) ∧
    (∀ r, get_registration_by_id s id = some r →
      ∃ e, delete_registration s id del =
          (true,
            { s with
              registrations := s.registrations.filter
                (fun x => decide (x.registration_id ≠ id))
              audit_log := s.audit_log ++ [e]
              next_log_id := s.next_log_id + 1
              now := s.now + 1 }) ∧
        e.action = AuditAction.deleted ∧
        e.previous_status = some (statusStr r.status) ∧
        e.new_status = none ∧
        e.registration_id = id ∧ e.user_id = del ∧
        e.meta = some (.deletedSnap r.endpoint_url r.endpoint_name
          (statusStr r.status) r.submitter_id r.approver_id del)) ∧
    (∀ old ∈ s.audit_log, old ∈ (delete_registration s id del).2.audit_log) := by
  refine ⟨?_, ?_, ?_⟩
  · intro h
    unfold get_registration_by_id at h
    simp [delete_registration, h]
  · intro r h
    unfold get_registration_by_id at h
    refine ⟨{ log_id := s.next_log_id
              registration_id := id
              user_id := del
              action := .deleted
              previous_status := some (statusStr r.status)
              new_status := none
              meta := some (.deletedSnap r.endpoint_url r.endpoint_name
                (statusStr r.status) r.submitter_id r.approver_id del)
              timestamp := s.now }, ?_, rfl, rfl, rfl, rfl, rfl, rfl⟩
    simp [delete_registration, h]
  · intro old hold
    cases hfind : s.registrations.find? (fun r => decide (r.registration_id = id)) with
    | none => simpa [delete_registration, hfind] using hold
    | some r0 =>
      simp only [delete_registration, hfind]
      exact List.mem_append_left _ hold

/-- Witness for C3: deleting an absent id in the empty database returns
False and changes nothing; deleting the concrete approved registration
returns True and both prior audit entries survive in the ledger. -/
theorem claim_C3_delete_atomic_audit_witness :
    delete_registration initDB 0 99 = (false, initDB) ∧
    (delete_registration dbA1 0 30).1 = true ∧
    entryA ∈ (delete_registration dbA1 0 30).2.audit_log ∧
    entryA1 ∈ (delete_registration dbA1 0 30).2.audit_log := by
  have h := claim_C3_delete_atomic_audit dbA1 0 30
  refine ⟨(claim_C3_delete_atomic_audit initDB 0 99).1 (by rfl),
    ?_, h.2.2 entryA (by decide), h.2.2 entryA1 (by decide)⟩
  obtain ⟨e, heq, _⟩ := h.2.1 regA1 (by rfl)
  rw [heq]

/-- Claim C4: Create with a free endpoint URL inserts a Pending record
with null approver fields and, in the same atomic unit, appends a
Created audit entry (previous_status null, new_status Pending, metadata
snapshotting the submitted fields), returning the full record with the
generated id and timestamps; Create with a taken URL fails with the
uniqueness-conflict outcome and leaves the state untouched, so after a
successful Create a second Create with the same URL fails and exactly
one registration with that URL exists. -/
theorem claim_C4_create_conflict (s : DB) (rc rc2 : RegistrationCreate)
    (sub sub2 : Nat) :
    (urlTaken s.registrations rc.endpoint_url = true →
      create_registration s rc sub = .error .uniqueViolation ∧
      applyOp s (.create rc sub) = s) ∧
    (urlTaken s.registrations rc.endpoint_url = false →
      ∃ r s', create_registration s rc sub = .ok (r, s') ∧
        r.status = RegistrationStatus.pending ∧ r.approver_id = none ∧
        r.approved_at = none ∧
        r.registration_id = s.next_registration_id ∧
        r.created_at = s.now ∧ r.updated_at = s.now ∧
        r.endpoint_url = rc.endpoint_url ∧ r.endpoint_name = rc.endpoint_name ∧
        r.owner_contact = rc.owner_contact ∧
        r.available_tools = rc.available_tools ∧ r.submitter_id = sub ∧
        s'.registrations = s.registrations ++ [r] ∧
        (∃ e, s'.audit_log = s.audit_log ++ [e] ∧
          e.action = AuditAction.created ∧
          e.previous_status = none ∧
          e.new_status = some (statusStr RegistrationStatus.pending) ∧
          e.registration_id = r.registration_id ∧ e.user_id = sub ∧
          e.meta = some (.createdSnap rc.endpoint_url rc.endpoint_name
            rc.owner_contact rc.available_tools.length)) ∧
        countUrl s'.registrations rc.endpoint_url = 1 ∧
        (rc2.endpoint_url = rc.endpoint_url →
          create_registration s' rc2 sub2 = .error .uniqueViolation ∧
          applyOp s' (.create rc2 sub2) = s')) := by
  constructor
  · intro hurl
    constructor
    · simp [create_registration, hurl]
    · simp [applyOp, create_registration, hurl]
  · intro hurl
    have hceq : create_registration s rc sub = .ok (
        { registration_id := s.next_registration_id
          endpoint_url := rc.endpoint_url
          endpoint_name := rc.endpoint_name
          description := rc.description
          owner_contact := rc.owner_contact
          available_tools := rc.available_tools
          status := .pending
          submitter_id := sub
          approver_id := none
          created_at := s.now
          updated_at := s.now
          approved_at := none },
        { s with
          registrations := s.registrations ++
            [{ registration_id := s.next_registration_id
               endpoint_url := rc.endpoint_url
               endpoint_name := rc.endpoint_name
               description := rc.description
               owner_contact := rc.owner_contact
               available_tools := rc.available_tools
               status := .pending
               submitter_id := sub
               approver_id := none
               created_at := s.now
               updated_at := s.now
               approved_at := none }]
          audit_log := s.audit_log ++
            [{ log_id := s.next_log_id
               registration_id := s.next_registration_id
               user_id := sub
               action := .created
               previous_status := none
               new_status := some (statusStr .pending)
               meta := some (.createdSnap rc.endpoint_url rc.endpoint_name
                 rc.owner_contact rc.available_tools.length)
               timestamp := s.now }]
          next_registration_id := s.next_registration_id + 1
          next_log_id := s.next_log_id + 1
          now := s.now + 1 }) := by
      simp [create_registration, hurl]
    refine ⟨_, _, hceq,
      rfl, rfl, rfl, rfl, rfl, rfl, rfl, rfl, rfl, rfl, rfl, rfl,
      ⟨_, rfl, rfl, rfl, rfl, rfl, rfl, rfl⟩, ?_, ?_⟩
    · have hnil : s.registrations.filter
          (fun r => decide (r.endpoint_url = rc.endpoint_url)) = [] := by
        rw [List.filter_eq_nil_iff]
        intro a ha
        have := (List.any_eq_false.mp hurl) a ha
        simpa using this
      simp [countUrl, List.filter_append, hnil]
    · intro h2url
      constructor
      · simp [create_registration, urlTaken, List.any_append, h2url]
      · simp [applyOp, create_registration, urlTaken, List.any_append, h2url]

/-- Witness for C4: creating the example registration in the empty
database succeeds with the concrete Pending row, a second create with
the same URL fails with the conflict outcome, and exactly one row with
that URL exists afterwards. -/
theorem claim_C4_create_conflict_witness :
    create_registration initDB rcA 10 = Except.ok (regA, dbA) ∧
    create_registration dbA rcA 11 = Except.error ServiceError.uniqueViolation ∧
    countUrl dbA.registrations rcA.endpoint_url = 1 := by
  obtain ⟨r, s', hceq, hst, hap, had, hid, hca, hua, hu, hn, hc, ht, hsub,
    hregs, hE, hcount, hsecond⟩ :=
    (claim_C4_create_conflict initDB rcA rcA 10 11).2 (by rfl)
  have h3 : create_registration initDB rcA 10 = Except.ok (regA, dbA) := by rfl
  obtain ⟨hr, hs⟩ : r = regA ∧ s' = dbA := by
    have h2 := hceq.symm.trans h3
    simpa using h2
  subst hr
  subst hs
  exact ⟨h3, (hsecond rfl).1, hcount⟩

/-- Counterexample for C5: with id 0 absent (empty database) versus id 0
present but already Approved, the core Decide operation returns the very
same outcome — Ok None — so the caller of update_registration_status
cannot tell "not found" from "not pending"; the code folds both
conditions into one result. -/
theorem claim_C5_counterexample :
    (update_registration_status initDB 0 RegistrationStatus.approved 9 none).map
        Prod.fst =
      (update_registration_status dbA1 0 RegistrationStatus.approved 9 none).map
        Prod.fst ∧
    (update_registration_status initDB 0 RegistrationStatus.approved 9 none).map
        Prod.fst = Except.ok none ∧
    get_registration_by_id initDB 0 = none ∧
    get_registration_by_id dbA1 0 = some regA1 ∧
    regA1.status ≠ RegistrationStatus.pending :=
  ⟨by rfl, by rfl, by rfl, by rfl, by decide⟩

/-- Claim C5 (amended): a Decide attempt on an existing non-Pending
record and one on a missing id both produce the same combined
not-found-or-not-pending outcome, None with the state unchanged — an
outcome distinct from success and from the typed ValueError, but the two
conditions are not distinguishable by the caller of the core
operation. -/
theorem claim_C5_not_pending_vs_not_found (s : DB) (id : Nat)
    (st : RegistrationStatus) (ap : Nat) (reason : Option String)
    (hst : st ≠ RegistrationStatus.pending)
    (hnone : s.registrations.find? (pendingRowWithId id) = none) :
    update_registration_status s id st ap reason = .ok (none, s) ∧
    (∀ r s', update_registration_status s id st ap reason ≠ .ok (some r, s')) ∧
    (∀ err, update_registration_status s id st ap reason ≠ .error err) := by
  have h : update_registration_status s id st ap reason = .ok (none, s) := by
    simp [update_registration_status, if_neg hst, hnone]
  refine ⟨h, ?_, ?_⟩
  · intro r s' hcon
    rw [h] at hcon
    simp at hcon
  · intro err hcon
    rw [h] at hcon
    simp at hcon

/-- Witness for C5 (amended): the None outcome at a concrete non-Pending
record and at a concrete missing id. -/
theorem claim_C5_not_pending_vs_not_found_witness :
    update_registration_status dbA1 0 RegistrationStatus.rejected 9 none =
      Except.ok (none, dbA1) ∧
    update_registration_status initDB 1 RegistrationStatus.approved 9 none =
      Except.ok (none, initDB) :=
  ⟨(claim_C5_not_pending_vs_not_found dbA1 0 RegistrationStatus.rejected 9 none
      (by decide) (by rfl)).1,
   (claim_C5_not_pending_vs_not_found initDB 1 RegistrationStatus.approved 9 none
      (by decide) (by rfl)).1⟩

/-- Claim C6: QueryLogs with both bounds given and toTime < fromTime
fails with the typed invalid-range error before performing any query —
the outcome is the same for every store state, so nothing is read — and
when toTime >= fromTime or either bound is absent, no range error is
raised. -/
theorem claim_C6_invalid_range (s : DB) (rid uid : Option Nat)
    (act : Option AuditAction) (f t : Option Nat) (limit offset : Nat) :
    (∀ fv tv, f = some fv → t = some tv → tv < fv →
      ∀ s2 : DB, query_logs s2 rid uid act f t limit offset =
        .error .invalidRange) ∧
    (∀ fv tv, f = some fv → t = some tv → fv ≤ tv →
      query_logs s rid uid act f t limit offset ≠ .error .invalidRange) ∧
    (f = none → query_logs s rid uid act f t limit offset ≠
      .error .invalidRange) ∧
    (t = none → query_logs s rid uid act f t limit offset ≠
      .error .invalidRange) := by
  refine ⟨?_, ?_, ?_, ?_⟩
  · intro fv tv hf ht hlt s2
    subst hf
    subst ht
    simp [query_logs, invalidDateRange, hlt]
  · intro fv tv hf ht hle
    subst hf
    subst ht
    simp [query_logs, invalidDateRange, Nat.not_lt.mpr hle]
  · intro hf
    subst hf
    cases t <;> simp [query_logs, invalidDateRange]
  · intro ht
    subst ht
    cases f <;> simp [query_logs, invalidDateRange]

/-- Witness for C6: the concrete inverted range fails with the typed
error, and the three well-formed variants do not. -/
theorem claim_C6_invalid_range_witness :
    query_logs dbA1 none none none (some 5) (some 3) 50 0 =
      Except.error ServiceError.invalidRange ∧
    query_logs dbA1 none none none (some 1) (some 2) 50 0 ≠
      Except.error ServiceError.invalidRange ∧
    query_logs dbA1 none none none none (some 2) 50 0 ≠
      Except.error ServiceError.invalidRange ∧
    query_logs dbA1 none none none (some 1) none 50 0 ≠
      Except.error ServiceError.invalidRange :=
  ⟨(claim_C6_invalid_range dbA1 none none none (some 5) (some 3) 50 0).1
      5 3 rfl rfl (by decide) dbA1,
   (claim_C6_invalid_range dbA1 none none none (some 1) (some 2) 50 0).2.1
      1 2 rfl rfl (by decide),
   (claim_C6_invalid_range dbA1 none none none none (some 2) 50 0).2.2.1 rfl,
   (claim_C6_invalid_range dbA1 none none none (some 1) none 50 0).2.2.2 rfl⟩

/-- Claim C7: every successful QueryLogs call returns at most
min(limit, 200) entries — the caller's limit is clamped to the upper
bound 200 — ordered newest-first by timestamp, and the returned total
counts all rows matching the filters, ignoring limit and offset. -/
theorem claim_C7_query_logs_pagination (s : DB) (rid uid : Option Nat)
    (act : Option AuditAction) (f t : Option Nat) (limit offset : Nat)
    (entries : List AuditLogEntry) (total : Nat)
    (h : query_logs s rid uid act f t limit offset = .ok (entries, total)) :
    entries.length ≤ min limit 200 ∧ entries.length ≤ 200 ∧
    List.Sorted newestLogFirst entries ∧
    total = (s.audit_log.filter (auditMatches rid uid act f t)).length := by
  by_cases hinv : invalidDateRange f t
  · simp [query_logs, hinv] at h
  · simp only [query_logs, hinv, Bool.false_eq_true, if_false, Except.ok.injEq,
      Prod.mk.injEq] at h
    obtain ⟨he, htot⟩ := h
    subst he
    refine ⟨?_, ?_, ?_, htot.symm⟩
    · rw [List.length_take]
      exact min_le_left _ _
    · rw [List.length_take]
      exact le_trans (min_le_left _ _) (min_le_right limit 200)
    · exact (List.sorted_insertionSort newestLogFirst _).sublist
        ((List.take_sublist _ _).trans (List.drop_sublist _ _))

/-- Witness for C7: the concrete query over the two-entry ledger returns
both entries newest-first with total 2, within the clamped limit. -/
theorem claim_C7_query_logs_pagination_witness :
    ([entryA1, entryA] : List AuditLogEntry).length ≤ min 50 200 ∧
    ([entryA1, entryA] : List AuditLogEntry).length ≤ 200 ∧
    List.Sorted newestLogFirst [entryA1, entryA] ∧
    (2 : Nat) = (dbA1.audit_log.filter
      (auditMatches none none none none none)).length :=
  claim_C7_query_logs_pagination dbA1 none none none none none 50 0
    [entryA1, entryA] 2 (by rfl)

/-- Claim C8: List returns registrations newest-first by creation time;
the optional status, submitter and search filters combine with logical
AND, the search term matching when it is a case-insensitive substring of
the name or of the owner-contact field (logical OR); the returned total
counts all matching registrations before pagination; and searching
"openai" over the seeded set containing "OpenAI MCP Server" and
"Weather Server" returns only the former with total 1. -/
theorem claim_C8_list_search (s : DB) (status : Option String) (sub : Option Nat)
    (search : Option String) (limit offset : Nat) :
    List.Sorted newestRegFirst
      (get_registrations s status sub search limit offset).1 ∧
    (get_registrations s status sub search limit offset).2 =
      (s.registrations.filter (regMatches status sub search)).length ∧
    (∀ r ∈ (get_registrations s status sub search limit offset).1,
      r ∈ s.registrations ∧ regMatches status sub search r = true) ∧
    (∀ r : Registration, regMatches status sub search r = true ↔
      ((∀ st, status = some st → st ≠ "" → statusStr r.status = st) ∧
       (∀ i, sub = some i → r.submitter_id = i) ∧
       (∀ term, search = some term → term ≠ "" →
         (strContainsCI r.endpoint_name term = true ∨
          strContainsCI r.owner_contact term = true)))) ∧
    get_registrations dbSeed none none (some "openai") 10 0 = ([regOpenAI], 1) := by
  refine ⟨?_, rfl, ?_, ?_, by rfl⟩
  · exact (List.sorted_insertionSort newestRegFirst _).sublist
      ((List.take_sublist _ _).trans (List.drop_sublist _ _))
  · intro r hr
    have hsort : r ∈ (s.registrations.filter
        (regMatches status sub search)).insertionSort newestRegFirst := by
      exact ((List.take_sublist _ _).trans (List.drop_sublist _ _)).mem hr
    have hfil : r ∈ s.registrations.filter (regMatches status sub search) :=
      (List.mem_insertionSort newestRegFirst).mp hsort
    exact ⟨(List.mem_filter.mp hfil).1, (List.mem_filter.mp hfil).2⟩
  · intro r
    simp only [regMatches, Bool.and_eq_true]
    constructor
    · rintro ⟨⟨h1, h2⟩, h3⟩
      refine ⟨?_, ?_, ?_⟩
      · intro st hst hne
        subst hst
        change (if st = "" then true
          else decide (statusStr r.status = st)) = true at h1
        rw [if_neg hne] at h1
        exact of_decide_eq_true h1
      · intro i hi
        subst hi
        exact of_decide_eq_true h2
      · intro term hterm hne
        subst hterm
        change (if term = "" then true
          else strContainsCI r.endpoint_name term ||
            strContainsCI r.owner_contact term) = true at h3
        rw [if_neg hne] at h3
        simpa using h3
    · rintro ⟨h1, h2, h3⟩
      refine ⟨⟨?_, ?_⟩, ?_⟩
      · cases status with
        | none => rfl
        | some st =>
          show (if st = "" then true
            else decide (statusStr r.status = st)) = true
          by_cases hne : st = ""
          · simp [hne]
          · rw [if_neg hne]
            exact decide_eq_true (h1 st rfl hne)
      · cases sub with
        | none => rfl
        | some i => exact decide_eq_true (h2 i rfl)
      · cases search with
        | none => rfl
        | some term =>
          show (if term = "" then true
            else strContainsCI r.endpoint_name term ||
              strContainsCI r.owner_contact term) = true
          by_cases hne : term = ""
          · simp [hne]
          · rw [if_neg hne]
            rcases h3 term rfl hne with h | h
            · simp [h]
            · simp [h]

/-- Witness for C8: in the seeded set, "openai" matches the OpenAI row
(which the returned page contains) and does not match the Weather row. -/
theorem claim_C8_list_search_witness :
    regOpenAI ∈ dbSeed.registrations ∧
    regMatches none none (some "openai") regOpenAI = true ∧
    regMatches none none (some "openai") regWeather = false := by
  have h := claim_C8_list_search dbSeed none none (some "openai") 10 0
  have hmem := h.2.2.1 regOpenAI (by rw [h.2.2.2.2]; simp)
  refine ⟨hmem.1, hmem.2, ?_⟩
  have hiff := h.2.2.2.1 regWeather
  have hnot : ¬ (regMatches none none (some "openai") regWeather = true) := by
    intro ht
    rcases (hiff.mp ht).2.2 "openai" rfl (by decide) with hcon | hcon
    · exact absurd hcon (by decide)
    · exact absurd hcon (by decide)
  exact Bool.eq_false_iff.mpr hnot

/-- Claim C9: the upsert-from-claims operation refreshes email and
display name from the identity claims but never changes any stored
user's is_admin flag; a subject with no stored record gets a new user
with the default is_admin = false. -/
theorem claim_C9_upsert_preserves_admin (s : DB) (c : UserCreate) :
    (∀ x ∈ s.users, ∃ x2 ∈ (get_or_create_user s c).2.users,
      x2.user_id = x.user_id ∧ x2.entra_id = x.entra_id ∧
      x2.is_admin = x.is_admin) ∧
    (∀ u, s.users.find? (fun v => decide (v.entra_id = c.entra_id)) = some u →
      (get_or_create_user s c).1.email = c.email ∧
      (get_or_create_user s c).1.display_name = c.display_name ∧
      (get_or_create_user s c).1.is_admin = u.is_admin ∧
      (get_or_create_user s c).1.user_id = u.user_id) ∧
    (s.users.find? (fun v => decide (v.entra_id = c.entra_id)) = none →
      (get_or_create_user s c).1.is_admin = false ∧
      (get_or_create_user s c).1.email = c.email ∧
      (get_or_create_user s c).1.display_name = c.display_name) := by
  refine ⟨?_, ?_, ?_⟩
  · intro x hx
    cases hfind : s.users.find? (fun v => decide (v.entra_id = c.entra_id)) with
    | none =>
      refine ⟨x, ?_, rfl, rfl, rfl⟩
      simp only [get_or_create_user, hfind]
      exact List.mem_append_left _ hx
    | some u =>
      by_cases hx2 : x.entra_id = c.entra_id
      · refine ⟨{ x with email := c.email, display_name := c.display_name, updated_at := s.now }, ?_, rfl, rfl, rfl⟩
        simp only [get_or_create_user, hfind]
        have : (fun y : User => if y.entra_id = c.entra_id then { y with email := c.email, display_name := c.display_name, updated_at := s.now } else y) x = { x with email := c.email, display_name := c.display_name, updated_at := s.now } := by
          simp [hx2]
        exact this ▸ List.mem_map_of_mem _ hx
      · refine ⟨x, ?_, rfl, rfl, rfl⟩
        simp only [get_or_create_user, hfind]
        have : (fun y : User => if y.entra_id = c.entra_id then { y with email := c.email, display_name := c.display_name, updated_at := s.now } else y) x = x := by
          simp [hx2]
        exact this ▸ List.mem_map_of_mem _ hx
  · intro u hf
    simp [get_or_create_user, hf]
  · intro hf
    simp [get_or_create_user, hf]

/-- Witness for C9: upserting fresh claims for the stored admin and
non-admin users refreshes their email while keeping is_admin true and
false respectively, and upserting an unknown subject creates a
non-admin user. -/
theorem claim_C9_upsert_preserves_admin_witness :
    (get_or_create_user dbUsers claimsAdmin).1.is_admin = true ∧
    (get_or_create_user dbUsers claimsAdmin).1.email = "a2@x.com" ∧
    (get_or_create_user dbUsers claimsBob).1.is_admin = false ∧
    (get_or_create_user dbUsers claimsBob).1.email = "new@x.com" ∧
    (get_or_create_user dbUsers claimsNew).1.is_admin = false ∧
    (∃ x2 ∈ (get_or_create_user dbUsers claimsBob).2.users,
      x2.user_id = userAdmin.user_id ∧ x2.entra_id = userAdmin.entra_id ∧
      x2.is_admin = userAdmin.is_admin) := by
  have hA := (claim_C9_upsert_preserves_admin dbUsers claimsAdmin).2.1
    userAdmin (by rfl)
  have hB := (claim_C9_upsert_preserves_admin dbUsers claimsBob).2.1
    userBob (by rfl)
  have hN := (claim_C9_upsert_preserves_admin dbUsers claimsNew).2.2 (by rfl)
  have hframe := (claim_C9_upsert_preserves_admin dbUsers claimsBob).1
    userAdmin (by decide)
  exact ⟨hA.2.2.1, hA.1, hB.2.2.1, hB.1, hN.1, hframe⟩

/-- Claim C10: checking admin status for a user id with no matching
record returns false rather than an error, and for an existing record it
returns exactly the stored is_admin flag. -/
theorem claim_C10_admin_check_default (s : DB) (uid : Nat) :
    ((∀ u ∈ s.users, u.user_id ≠ uid) → check_admin_status s uid = false) ∧
    (∀ u, s.users.find? (fun v => decide (v.user_id = uid)) = some u →
      check_admin_status s uid = u.is_admin) := by
  constructor
  · intro h
    have hnone : s.users.find? (fun v => decide (v.user_id = uid)) = none := by
      rw [List.find?_eq_none]
      intro x hx
      simpa using h x hx
    simp [check_admin_status, hnone]
  · intro u hf
    simp [check_admin_status, hf]

/-- Witness for C10: the stored admin reads true, the stored non-admin
reads false, and an absent id reads false. -/
theorem claim_C10_admin_check_default_witness :
    check_admin_status dbUsers 1 = true ∧
    check_admin_status dbUsers 2 = false ∧
    check_admin_status dbUsers 42 = false :=
  ⟨(claim_C10_admin_check_default dbUsers 1).2 userAdmin (by rfl),
   (claim_C10_admin_check_default dbUsers 2).2 userBob (by rfl),
   (claim_C10_admin_check_default dbUsers 42).1 (by decide)⟩
